import Mathlib

/-!
Shallow embedding of the MySQL administration service (Flask app) for
verification of its specification.  External effects (the MySQL server,
the file system, the mysqldump/mysql subprocesses) are modelled as
explicit state passed to and returned from each operation, or as outcome
parameters; the control flow of each function mirrors the Python source.
-/

namespace Config

/-- System databases protected from deletion (src/config.py, `SYSTEM_DATABASES`). -/
def SYSTEM_DATABASES : List String :=
  ["information_schema", "mysql", "performance_schema", "sys"]

end Config

namespace DatabaseModel

/-- Result of one database-layer operation, recording the observable
effects on the server: how many connections were opened, which SQL
statements were issued, the final database list, and the returned value
or raised error. -/
structure OpResult where
  connectionsOpened : Nat
  sqlIssued : List String
  finalDatabases : List String
  outcome : Except String Bool
  deriving Repr

/-- Embedding of `DatabaseModel.drop_database` (src/models/database_model.py).
The Python code first checks membership in `Config.SYSTEM_DATABASES` and
raises "Cannot drop system database" before any connection is made;
otherwise it opens a connection and issues a DROP DATABASE statement.
The server's execution of the statement is abstracted by `serverExec`,
which maps the statement and the current database list to either a new
database list or a driver error. -/
def drop_database (serverExec : String → List String → Except String (List String))
    (server : List String) (database_name : String) : OpResult :=
  if database_name ∈ Config.SYSTEM_DATABASES then
    { connectionsOpened := 0
      sqlIssued := []
      finalDatabases := server
      outcome := Except.error "Cannot drop system database" }
  else
    let sql := "DROP DATABASE `" ++ database_name ++ "`"
    match serverExec sql server with
    | Except.ok server2 =>
        { connectionsOpened := 1, sqlIssued := [sql]
          finalDatabases := server2, outcome := Except.ok true }
    | Except.error e =>
        { connectionsOpened := 1, sqlIssued := [sql]
          finalDatabases := server, outcome := Except.error e }

/-- Embedding of `DatabaseModel.get_all_databases`: the Python list
comprehension keeps the rows of SHOW DATABASES whose name is not in
`Config.SYSTEM_DATABASES`.  `server` is the list of database names the
server reports. -/
def get_all_databases (server : List String) : List String :=
  server.filter (fun db => db ∉ Config.SYSTEM_DATABASES)

end DatabaseModel

namespace BackupModel

/-- A backup metadata entry (the JSON object built in
`BackupModel.add_backup_entry`).  The ISO timestamp string is modelled as
a natural number that increases with the local clock. -/
structure BackupEntry where
  filename : String
  database : String
  table : String
  timestamp : Nat
  size : Nat
  deriving Repr, DecidableEq

/-- Contents of the metadata JSON file on disk: the file may be absent,
present but not valid JSON, or a stored list of entries. -/
inductive MetaContent where
  | absent : MetaContent
  | malformed : MetaContent
  | stored : List BackupEntry → MetaContent
  deriving Repr, DecidableEq

/-- Embedding of `BackupModel.get_metadata`: if the file exists it is
parsed with `json.load`, which raises on malformed contents (modelled as
`Except.error`); if the file does not exist the function returns `[]`. -/
def get_metadata : MetaContent → Except String (List BackupEntry)
  | MetaContent.absent => Except.ok []
  | MetaContent.malformed => Except.error "JSONDecodeError"
  | MetaContent.stored entries => Except.ok entries

/-- Embedding of `BackupModel.save_metadata`: overwrites the file with
the given list. -/
def save_metadata (metadata : List BackupEntry) : MetaContent :=
  MetaContent.stored metadata

/-- The entry dictionary built by `BackupModel.add_backup_entry`: the
`table` field is the table name when it is truthy (non-`None`, non-empty)
and the literal "Full Database" otherwise. -/
def mk_entry (database : String) (table : Option String) (filename : String)
    (timestamp : Nat) (size : Nat) : BackupEntry :=
  { filename := filename
    database := database
    table := match table with
      | some t => if t = "" then "Full Database" else t
      | none => "Full Database"
    timestamp := timestamp
    size := size }

/-- Embedding of `BackupModel.add_backup_entry`: loads the metadata
(propagating any parse error), builds the entry, prepends it with
`metadata.insert(0, entry)` and saves. -/
def add_backup_entry (file : MetaContent) (database : String) (table : Option String)
    (filename : String) (timestamp : Nat) (size : Nat) :
    Except String (MetaContent × BackupEntry) := do
  let metadata ← get_metadata file
  let entry := mk_entry database table filename timestamp size
  pure (save_metadata (entry :: metadata), entry)

/-- Embedding of `BackupModel.remove_backup_entry`: loads the metadata,
keeps the entries whose filename differs from the given one, saves. -/
def remove_backup_entry (file : MetaContent) (filename : String) :
    Except String MetaContent := do
  let metadata ← get_metadata file
  pure (save_metadata (metadata.filter (fun m => m.filename ≠ filename)))

/-- Contents of the restore-stats JSON file: absent, unreadable or
malformed (any of which makes `json.load` or `int(...)` raise inside the
guarded block), a valid JSON object without the `total_restored` key
(where `data.get` supplies the default 0), or a stored integer count. -/
inductive StatsContent where
  | absent : StatsContent
  | corrupt : StatsContent
  | noKey : StatsContent
  | stored : Int → StatsContent
  deriving Repr, DecidableEq

/-- Embedding of `BackupModel._load_restore_count`: every failure path
(absent file, unreadable or malformed contents, missing key) yields 0 and
no exception escapes the function. -/
def load_restore_count : StatsContent → Int
  | StatsContent.absent => 0
  | StatsContent.corrupt => 0
  | StatsContent.noKey => 0
  | StatsContent.stored n => n

/-- Embedding of `BackupModel._save_restore_count`: writes
the object with the new count; any write failure (modelled by
`writable = false`) is swallowed, leaving the file as it was. -/
def save_restore_count (writable : Bool) (file : StatsContent) (count : Int) :
    StatsContent :=
  if writable then StatsContent.stored count else file

/-- The restore-count update performed by `BackupModel.restore_backup`
after the mysql tool succeeds: load the current count, persist count + 1,
and in all cases report success (`return True`). -/
def restore_stats_update (writable : Bool) (file : StatsContent) :
    StatsContent × Bool :=
  (save_restore_count writable file (load_restore_count file + 1), true)

/-- Iterates `restore_stats_update`: the stats-file contents after a
given number of successful restores. -/
def iterate_restores (writable : Bool) : Nat → StatsContent → StatsContent
  | 0, file => file
  | n + 1, file => iterate_restores writable n (restore_stats_update writable file).1

/-- Python's `s.split(sep)` for a one-character separator, on the
character list of the string: splits at every occurrence of `sep` and
always returns at least one piece (`"".split('_') == [""]`). -/
def py_split (sep : Char) : List Char → List (List Char)
  | [] => [[]]
  | c :: cs =>
    if c = sep then [] :: py_split sep cs
    else
      match py_split sep cs with
      | [] => [[c]]
      | w :: ws => (c :: w) :: ws

/-- The target-database derivation in `BackupModel.restore_backup`:
`if not target_database: target_database = filename.split('_')[0]` — a
`None` or empty target is replaced by the text before the first
underscore of the filename. -/
def restore_target (filename : List Char) (target_database : Option (List Char)) :
    List Char :=
  match target_database with
  | some t => if t = [] then (py_split '_' filename).headD [] else t
  | none => (py_split '_' filename).headD []

/-- File-system state seen by the backup layer: the names of the files in
the backup directory and the contents of the metadata file. -/
structure FsState where
  backup_dir : List String
  metadata : MetaContent
  deriving Repr, DecidableEq

/-- Opening a path in write mode creates the file if absent. -/
def create_file (dir : List String) (fn : String) : List String :=
  if fn ∈ dir then dir else fn :: dir

/-- `os.remove` preceded by an existence check: removes the file when
present, leaves the directory unchanged when absent. -/
def remove_file (dir : List String) (fn : String) : List String :=
  dir.filter (fun f => f ≠ fn)

/-- Outcome of the external mysqldump invocation: success with the byte
size of the produced dump, or a nonzero exit with diagnostic output. -/
inductive DumpOutcome where
  | ok : Nat → DumpOutcome
  | failed : String → DumpOutcome
  deriving Repr, DecidableEq

/-- The filename computed by `BackupModel.backup_database`:
`<database>_<table>_<timestamp>.sql` when a table name is truthy,
`<database>_<timestamp>.sql` otherwise. -/
def backup_filename (database_name : String) (table_name : Option String)
    (timestamp : String) : String :=
  match table_name with
  | some t =>
    if t = "" then database_name ++ "_" ++ timestamp ++ ".sql"
    else database_name ++ "_" ++ t ++ "_" ++ timestamp ++ ".sql"
  | none => database_name ++ "_" ++ timestamp ++ ".sql"

/-- Embedding of `BackupModel.backup_database`: opens the computed path
for writing (creating the file), runs mysqldump into it; on a
`CalledProcessError` removes the file if it exists and raises
"Backup failed: <stderr>"; on success reads the file size and appends the
metadata entry (a metadata parse error at that point propagates without
cleaning up the dump file, since it is not a `CalledProcessError`). -/
def backup_database (outcome : DumpOutcome) (st : FsState) (database_name : String)
    (table_name : Option String) (timestamp : String) (entry_ts : Nat) :
    FsState × Except String (String × Nat) :=
  let filename := backup_filename database_name table_name timestamp
  let dir1 := create_file st.backup_dir filename
  match outcome with
  | DumpOutcome.failed stderr =>
      ({ backup_dir := remove_file dir1 filename, metadata := st.metadata },
       Except.error ("Backup failed: " ++ stderr))
  | DumpOutcome.ok file_size =>
      match add_backup_entry st.metadata database_name table_name filename
          entry_ts file_size with
      | Except.ok (meta2, _) =>
          ({ backup_dir := dir1, metadata := meta2 },
           Except.ok (filename, file_size))
      | Except.error e =>
          ({ backup_dir := dir1, metadata := st.metadata }, Except.error e)

/-- Embedding of `BackupModel.delete_backup`: removes the backup file if
present (absence is not an error), then removes the metadata entry; a
metadata parse error propagates after the file removal. -/
def delete_backup (dir : List String) (metaFile : MetaContent) (filename : String) :
    (List String × MetaContent) × Except String Bool :=
  let dir2 := remove_file dir filename
  match remove_backup_entry metaFile filename with
  | Except.ok meta2 => ((dir2, meta2), Except.ok true)
  | Except.error e => ((dir2, metaFile), Except.error e)

/-- The statistics object returned by `BackupModel.get_backup_stats`. -/
structure BackupStats where
  total_backups : Nat
  databases_backed_up : Nat
  total_restored : Int
  total_tables : Nat
  deriving Repr, DecidableEq

/-- Embedding of `BackupModel.get_backup_stats`: loads the metadata
(propagating a parse error), counts entries and distinct database names,
loads the persistent restore count, and runs the aggregate
information-schema table-count query whose failure is caught and turned
into a count of 0. -/
def get_backup_stats (metaFile : MetaContent) (statsFile : StatsContent)
    (table_query : Except String Nat) : Except String BackupStats := do
  let metadata ← get_metadata metaFile
  let databases_backed_up := (metadata.map (fun e => e.database)).dedup
  let total_restored := load_restore_count statsFile
  let total_tables := match table_query with
    | Except.ok n => n
    | Except.error _ => 0
  pure { total_backups := metadata.length
         databases_backed_up := databases_backed_up.length
         total_restored := total_restored
         total_tables := total_tables }

/-- A backup-creation request together with the clock values observed
during its handling (the filename already computed by
`backup_database`, the metadata timestamp, the file size). -/
structure BackupRequest where
  database : String
  table : Option String
  filename : String
  timestamp : Nat
  size : Nat
  deriving Repr, DecidableEq

/-- The metadata entry a request produces through `add_backup_entry`. -/
def req_entry (r : BackupRequest) : BackupEntry :=
  mk_entry r.database r.table r.filename r.timestamp r.size

/-- Runs a sequence of successful backup creations against the metadata
file, each through `add_backup_entry`; a metadata parse error stops the
run (it cannot occur from a `stored` file). -/
def run_creations (file : MetaContent) : List BackupRequest → MetaContent
  | [] => file
  | r :: rs =>
    match add_backup_entry file r.database r.table r.filename r.timestamp r.size with
    | Except.ok (file2, _) => run_creations file2 rs
    | Except.error _ => file

end BackupModel

namespace Controllers

/-- The observable part of an HTTP handler's behaviour: the response
status, the `success` field of the JSON envelope, and whether the handler
reached its model-layer call. -/
structure Response where
  status : Nat
  success : Bool
  backend_called : Bool
  deriving Repr, DecidableEq

/-- Python truthiness test used by the handlers (`if not name: ...`): a
missing field (`data.get` returning `None`) and an empty string are both
falsy. -/
def falsy : Option String → Bool
  | none => true
  | some s => s == ""

/-- Embedding of `create_database` (src/controllers/database_controller.py):
400 with success false when `name` is falsy, before any model call;
otherwise the model call runs and its error is mapped to 500. -/
def create_database_route (name : Option String) (backend : Except String Bool) :
    Response :=
  if falsy name then
    { status := 400, success := false, backend_called := false }
  else
    match backend with
    | Except.ok _ => { status := 200, success := true, backend_called := true }
    | Except.error _ => { status := 500, success := false, backend_called := true }

/-- Embedding of `create_backup` (src/controllers/backup_controller.py):
400 when `database` is falsy, before calling `BackupModel.backup_database`;
otherwise the model runs and any raised error becomes a 500 envelope. -/
def create_backup_route (database : Option String) (table : Option String)
    (outcome : BackupModel.DumpOutcome) (st : BackupModel.FsState)
    (timestamp : String) (entry_ts : Nat) : Response × BackupModel.FsState :=
  if falsy database then
    ({ status := 400, success := false, backend_called := false }, st)
  else
    let db := database.getD ""
    let (st2, r) := BackupModel.backup_database outcome st db table timestamp entry_ts
    match r with
    | Except.ok _ => ({ status := 200, success := true, backend_called := true }, st2)
    | Except.error _ =>
        ({ status := 500, success := false, backend_called := true }, st2)

/-- Embedding of `restore_backup` (src/controllers/backup_controller.py):
400 when `filename` is falsy, before calling `BackupModel.restore_backup`,
whose outcome is abstracted by `backend`. -/
def restore_route (filename : Option String) (_target_database : Option String)
    (backend : Except String Bool) : Response :=
  if falsy filename then
    { status := 400, success := false, backend_called := false }
  else
    match backend with
    | Except.ok _ => { status := 200, success := true, backend_called := true }
    | Except.error _ => { status := 500, success := false, backend_called := true }

/-- Embedding of `create_user` (src/controllers/user_controller.py):
400 when `username` or `password` is falsy, before calling
`UserModel.create_user`. -/
def create_user_route (username : Option String) (password : Option String)
    (_host : Option String) (backend : Except String Bool) : Response :=
  if falsy username || falsy password then
    { status := 400, success := false, backend_called := false }
  else
    match backend with
    | Except.ok _ => { status := 200, success := true, backend_called := true }
    | Except.error _ => { status := 500, success := false, backend_called := true }

/-- Embedding of `get_metadata` (src/controllers/backup_controller.py):
returns the metadata with success, or a 500 envelope when the model
raises. -/
def metadata_route (metaFile : BackupModel.MetaContent) : Response :=
  match BackupModel.get_metadata metaFile with
  | Except.ok _ => { status := 200, success := true, backend_called := true }
  | Except.error _ => { status := 500, success := false, backend_called := true }

/-- Embedding of `get_stats` (src/controllers/backup_controller.py). -/
def stats_route (metaFile : BackupModel.MetaContent)
    (statsFile : BackupModel.StatsContent) (table_query : Except String Nat) :
    Response :=
  match BackupModel.get_backup_stats metaFile statsFile table_query with
  | Except.ok _ => { status := 200, success := true, backend_called := true }
  | Except.error _ => { status := 500, success := false, backend_called := true }

/-- Embedding of `delete_backup` (src/controllers/backup_controller.py):
the filename is a path parameter, so no validation happens; the model
call's error becomes a 500 envelope. -/
def delete_backup_route (filename : String) (st : BackupModel.FsState) :
    Response × BackupModel.FsState :=
  match BackupModel.delete_backup st.backup_dir st.metadata filename with
  | ((dir2, meta2), Except.ok _) =>
      ({ status := 200, success := true, backend_called := true },
       { backup_dir := dir2, metadata := meta2 })
  | ((dir2, _), Except.error _) =>
      ({ status := 500, success := false, backend_called := true },
       { backup_dir := dir2, metadata := st.metadata })

end Controllers

namespace Samples

/-- A concrete metadata entry used to exercise the operations. -/
def entryA : BackupModel.BackupEntry :=
  { filename := "a.sql", database := "d1", table := "Full Database"
    timestamp := 1, size := 10 }

/-- A second concrete metadata entry. -/
def entryB : BackupModel.BackupEntry :=
  { filename := "b.sql", database := "d2", table := "Full Database"
    timestamp := 2, size := 20 }

/-- A concrete metadata list, newest first. -/
def metaBA : List BackupModel.BackupEntry := [entryB, entryA]

/-- A concrete backup-creation request. -/
def reqC : BackupModel.BackupRequest :=
  { database := "d3", table := none, filename := "d3_20240102_000000.sql"
    timestamp := 5, size := 30 }

/-- A later concrete backup-creation request. -/
def reqD : BackupModel.BackupRequest :=
  { database := "d4", table := some "t", filename := "d4_t_20240103_000000.sql"
    timestamp := 7, size := 40 }

end Samples

section Helpers

open BackupModel

/-- `py_split` always returns at least one piece, like Python's `split`. -/
theorem py_split_ne_nil (sep : Char) (s : List Char) : py_split sep s ≠ [] := by
  cases s with
  | nil => simp [py_split]
  | cons c cs =>
    unfold py_split
    by_cases hc : c = sep
    · simp [hc]
    · simp only [hc, if_false]
      cases py_split sep cs <;> simp

/-- The first piece of Python's `split` is the text before the first
occurrence of the separator. -/
theorem py_split_headD (sep : Char) (s : List Char) :
    (py_split sep s).headD [] = s.takeWhile (fun c => c ≠ sep) := by
  induction s with
  | nil => rfl
  | cons c cs ih =>
    unfold py_split
    by_cases hc : c = sep
    · simp [hc, List.takeWhile_cons]
    · simp only [hc, if_false, List.takeWhile_cons]
      cases h : py_split sep cs with
      | nil => exact absurd h (py_split_ne_nil sep cs)
      | cons w ws =>
        rw [h] at ih
        simp only [List.headD_cons, ne_eq, decide_not] at ih
        simp [hc, ih, List.takeWhile_cons]

theorem remove_create_eq (dir : List String) (fn : String) (h : fn ∉ dir) :
    remove_file (create_file dir fn) fn = dir := by
  unfold create_file remove_file
  rw [if_neg h, List.filter_cons_of_neg (by simp)]
  rw [List.filter_eq_self]
  intro a ha
  simp only [ne_eq, decide_eq_true_eq]
  intro rfl'
  exact h (rfl' ▸ ha)

/-- Each step of `run_creations` from a stored metadata file prepends the
request's entry. -/
theorem run_creations_stored (rs : List BackupRequest) (m0 : List BackupEntry) :
    run_creations (MetaContent.stored m0) rs =
      MetaContent.stored ((rs.map req_entry).reverse ++ m0) := by
  induction rs generalizing m0 with
  | nil => simp [run_creations]
  | cons r rs ih =>
    unfold run_creations
    simp only [add_backup_entry, get_metadata, save_metadata, bind, Except.bind,
      pure, Except.pure, List.map_cons, List.reverse_cons, List.append_assoc]
    have hre : mk_entry r.database r.table r.filename r.timestamp r.size = req_entry r := rfl
    rw [hre, ih (req_entry r :: m0)]
    simp

theorem iterate_restores_stored (n : Nat) (k : Int) :
    iterate_restores true n (StatsContent.stored k) = StatsContent.stored (k + n) := by
  induction n generalizing k with
  | zero => simp [iterate_restores]
  | succ m ih =>
    unfold iterate_restores
    simp only [restore_stats_update, save_restore_count, load_restore_count, if_pos]
    rw [ih (k + 1)]
    congr 1
    push_cast
    ring

end Helpers

/-- Claim C1: for every database name in the protected list, the
drop-database operation fails with the "cannot drop system database"
error before any connection is opened or any SQL statement is issued, and
the set of databases on the server is unchanged. -/
theorem drop_database_protected_rejected
    (serverExec : String → List String → Except String (List String))
    (server : List String) (name : String)
    (h : name ∈ Config.SYSTEM_DATABASES) :
    DatabaseModel.drop_database serverExec server name =
      { connectionsOpened := 0
        sqlIssued := []
        finalDatabases := server
        outcome := Except.error "Cannot drop system database" } := by
  unfold DatabaseModel.drop_database
  rw [if_pos h]

theorem drop_database_protected_rejected_witness :
    "mysql" ∈ Config.SYSTEM_DATABASES ∧
    DatabaseModel.drop_database (fun _ dbs => Except.ok dbs)
        ["mysql", "shop"] "mysql" =
      { connectionsOpened := 0
        sqlIssued := []
        finalDatabases := ["mysql", "shop"]
        outcome := Except.error "Cannot drop system database" } :=
  ⟨by decide, drop_database_protected_rejected _ _ _ (by decide)⟩

/-- Claim C2: the list-databases operation returns exactly the server's
database names that are not in the protected list; no protected name ever
appears in its result, even when such a database exists on the server. -/
theorem get_all_databases_excludes_protected :
    ∀ (server : List String) (d : String),
      (d ∈ DatabaseModel.get_all_databases server ↔
        d ∈ server ∧ d ∉ Config.SYSTEM_DATABASES) := by
  intro server d
  unfold DatabaseModel.get_all_databases
  simp [List.mem_filter]

/-- Claim C7: with no explicit target database (absent or empty), the
restore target is the portion of the backup filename before its first
underscore; in particular `salesdb_20240101_000000.sql` yields
`salesdb`. -/
theorem restore_target_before_first_underscore :
    (∀ fn : List Char,
        BackupModel.restore_target fn none = fn.takeWhile (fun c => c ≠ '_')) ∧
    (∀ fn : List Char,
        BackupModel.restore_target fn (some []) = fn.takeWhile (fun c => c ≠ '_')) ∧
    BackupModel.restore_target ("salesdb_20240101_000000.sql".toList) none =
      "salesdb".toList := by
  refine ⟨fun fn => ?_, fun fn => ?_, ?_⟩
  · unfold BackupModel.restore_target
    exact py_split_headD '_' fn
  · exact py_split_headD '_' fn
  · decide

/-- Claim C5: reading the restore counter from an absent, unreadable, or
malformed stats file yields 0 and never raises; after N successful
restores starting from an absent file the counter reads back N; and a
failed persist (unwritable file) leaves the file untouched while the
restore still reports success. -/
theorem restore_counter_behaviour :
    BackupModel.load_restore_count BackupModel.StatsContent.absent = 0 ∧
    BackupModel.load_restore_count BackupModel.StatsContent.corrupt = 0 ∧
    BackupModel.load_restore_count BackupModel.StatsContent.noKey = 0 ∧
    (∀ N : Nat,
      BackupModel.load_restore_count
        (BackupModel.iterate_restores true N BackupModel.StatsContent.absent) = N) ∧
    (∀ file : BackupModel.StatsContent,
      BackupModel.restore_stats_update false file = (file, true)) := by
  refine ⟨rfl, rfl, rfl, fun N => ?_, fun file => ?_⟩
  · cases N with
    | zero => rfl
    | succ m =>
      show BackupModel.load_restore_count
        (BackupModel.iterate_restores true m
          (BackupModel.restore_stats_update true BackupModel.StatsContent.absent).1) = _
      have h1 : (BackupModel.restore_stats_update true BackupModel.StatsContent.absent).1 =
          BackupModel.StatsContent.stored 1 := rfl
      rw [h1, iterate_restores_stored m 1]
      simp [BackupModel.load_restore_count]
      ring
  · simp [BackupModel.restore_stats_update, BackupModel.save_restore_count]

/-- Claim C9: when the aggregate table-count query fails, the statistics
operation reports total_tables as 0 and still returns the full
statistics object computed from the metadata and the restore counter. -/
theorem backup_stats_table_count_fallback :
    ∀ (m0 : List BackupModel.BackupEntry) (sf : BackupModel.StatsContent) (e : String),
      BackupModel.get_backup_stats (BackupModel.MetaContent.stored m0) sf
          (Except.error e) =
        Except.ok
          { total_backups := m0.length
            databases_backed_up := (m0.map (fun x => x.database)).dedup.length
            total_restored := BackupModel.load_restore_count sf
            total_tables := 0 } := by
  intro m0 sf e
  rfl

/-- Claim C10: a present but malformed metadata file is not tolerated:
every operation that loads the metadata — listing backup metadata,
computing backup statistics, creating a backup (after a successful dump),
and deleting a backup — returns the HTTP 500 error envelope instead of
falling back to an empty sequence. -/
theorem malformed_metadata_yields_500 :
    Controllers.metadata_route BackupModel.MetaContent.malformed =
      { status := 500, success := false, backend_called := true } ∧
    (∀ (sf : BackupModel.StatsContent) (q : Except String Nat),
      Controllers.stats_route BackupModel.MetaContent.malformed sf q =
        { status := 500, success := false, backend_called := true }) ∧
    (∀ (table : Option String) (dir : List String) (ts : String)
        (entry_ts : Nat) (size : Nat),
      (Controllers.create_backup_route (some "db") table
          (BackupModel.DumpOutcome.ok size)
          { backup_dir := dir, metadata := BackupModel.MetaContent.malformed }
          ts entry_ts).1 =
        { status := 500, success := false, backend_called := true }) ∧
    (∀ (fn : String) (dir : List String),
      (Controllers.delete_backup_route fn
          { backup_dir := dir, metadata := BackupModel.MetaContent.malformed }).1 =
        { status := 500, success := false, backend_called := true }) := by
  refine ⟨rfl, fun sf q => rfl, fun table dir ts entry_ts size => ?_, fun fn dir => ?_⟩
  · simp [Controllers.create_backup_route, Controllers.falsy,
      BackupModel.backup_database, BackupModel.add_backup_entry,
      BackupModel.get_metadata, Except.bind]
  · simp [Controllers.delete_backup_route, BackupModel.delete_backup,
      BackupModel.remove_backup_entry, BackupModel.get_metadata, Except.bind]

/-- Claim C8: every handler with an empty or absent required body field
(name for create-database, database for create-backup, filename for
restore, username or password for create-user) returns HTTP 400 with
success false and performs no model-layer call. -/
theorem missing_required_field_400_no_backend :
    (∀ (name : Option String) (backend : Except String Bool),
      Controllers.falsy name = true →
      Controllers.create_database_route name backend =
        { status := 400, success := false, backend_called := false }) ∧
    (∀ (database table : Option String) (outcome : BackupModel.DumpOutcome)
        (st : BackupModel.FsState) (ts : String) (entry_ts : Nat),
      Controllers.falsy database = true →
      Controllers.create_backup_route database table outcome st ts entry_ts =
        ({ status := 400, success := false, backend_called := false }, st)) ∧
    (∀ (fn target : Option String) (backend : Except String Bool),
      Controllers.falsy fn = true →
      Controllers.restore_route fn target backend =
        { status := 400, success := false, backend_called := false }) ∧
    (∀ (u p h : Option String) (backend : Except String Bool),
      Controllers.falsy u = true ∨ Controllers.falsy p = true →
      Controllers.create_user_route u p h backend =
        { status := 400, success := false, backend_called := false }) := by
  refine ⟨fun name backend h => ?_, fun database table outcome st ts entry_ts h => ?_,
      fun fn target backend h => ?_, fun u p hh backend h => ?_⟩
  · simp [Controllers.create_database_route, h]
  · simp [Controllers.create_backup_route, h]
  · simp [Controllers.restore_route, h]
  · rcases h with h | h <;> simp [Controllers.create_user_route, h]

theorem missing_required_field_400_no_backend_witness :
    Controllers.create_database_route none (Except.ok true) =
      { status := 400, success := false, backend_called := false } ∧
    Controllers.create_backup_route (some "") none (BackupModel.DumpOutcome.ok 0)
        { backup_dir := [], metadata := BackupModel.MetaContent.stored [] } "t" 0 =
      ({ status := 400, success := false, backend_called := false },
       { backup_dir := [], metadata := BackupModel.MetaContent.stored [] }) ∧
    Controllers.restore_route none none (Except.ok true) =
      { status := 400, success := false, backend_called := false } ∧
    Controllers.create_user_route (some "alice") none none (Except.ok true) =
      { status := 400, success := false, backend_called := false } :=
  ⟨missing_required_field_400_no_backend.1 none (Except.ok true) rfl,
   missing_required_field_400_no_backend.2.1 (some "") none
     (BackupModel.DumpOutcome.ok 0)
     { backup_dir := [], metadata := BackupModel.MetaContent.stored [] } "t" 0 rfl,
   missing_required_field_400_no_backend.2.2.1 none none (Except.ok true) rfl,
   missing_required_field_400_no_backend.2.2.2 (some "alice") none none
     (Except.ok true) (Or.inr rfl)⟩

/-- Claim C6: when the dump tool fails, the backup operation deletes the
partially written file at the computed path, adds no metadata entry, and
fails with a "Backup failed" error carrying the tool's stderr — the
backup directory and the metadata store are left as they were before the
call (assuming the computed, timestamped path was fresh). -/
theorem failed_backup_leaves_state_unchanged
    (st : BackupModel.FsState) (db : String) (table : Option String)
    (ts : String) (entry_ts : Nat) (stderr : String)
    (h : BackupModel.backup_filename db table ts ∉ st.backup_dir) :
    BackupModel.backup_database (BackupModel.DumpOutcome.failed stderr)
        st db table ts entry_ts =
      (st, Except.error ("Backup failed: " ++ stderr)) := by
  simp only [BackupModel.backup_database]
  rw [remove_create_eq st.backup_dir (BackupModel.backup_filename db table ts) h]

theorem failed_backup_leaves_state_unchanged_witness :
    BackupModel.backup_filename "shop" none "20240101_000000" ∉ ["other.sql"] ∧
    BackupModel.backup_database
        (BackupModel.DumpOutcome.failed "access denied")
        { backup_dir := ["other.sql"], metadata := BackupModel.MetaContent.stored [] }
        "shop" none "20240101_000000" 7 =
      ({ backup_dir := ["other.sql"], metadata := BackupModel.MetaContent.stored [] },
       Except.error ("Backup failed: " ++ "access denied")) :=
  ⟨by decide,
   failed_backup_leaves_state_unchanged
     { backup_dir := ["other.sql"], metadata := BackupModel.MetaContent.stored [] }
     "shop" none "20240101_000000" 7 "access denied" (by decide)⟩

/-- Claim C4: deleting a backup by filename removes exactly the metadata
entries bearing that filename, keeps every other entry in its original
relative order, and reports success even when the backup file itself is
absent from the directory (which is then left unchanged). -/
theorem delete_backup_removes_exactly_entry
    (dir : List String) (m0 : List BackupModel.BackupEntry) (fn : String)
    (h : fn ∉ dir) :
    BackupModel.delete_backup dir (BackupModel.MetaContent.stored m0) fn =
      ((dir,
        BackupModel.MetaContent.stored
          (m0.filter (fun m => m.filename ≠ fn))),
       Except.ok true) ∧
    (∀ e ∈ m0.filter (fun m => m.filename ≠ fn), e.filename ≠ fn) ∧
    List.Sublist (m0.filter (fun m => m.filename ≠ fn)) m0 ∧
    (∀ e ∈ m0, e.filename ≠ fn → e ∈ m0.filter (fun m => m.filename ≠ fn)) := by
  refine ⟨?_, ?_, List.filter_sublist m0, ?_⟩
  · unfold BackupModel.delete_backup BackupModel.remove_backup_entry
    have hd : BackupModel.remove_file dir fn = dir := by
      unfold BackupModel.remove_file
      rw [List.filter_eq_self]
      intro a ha
      simp only [ne_eq, decide_eq_true_eq]
      intro rfl'
      exact h (rfl' ▸ ha)
    simp [hd, BackupModel.get_metadata, BackupModel.save_metadata, Except.bind]
  · intro e he
    have := List.of_mem_filter he
    simpa using this
  · intro e he hne
    exact List.mem_filter.mpr ⟨he, by simpa using hne⟩

theorem delete_backup_removes_exactly_entry_witness :
    ("a.sql" : String) ∉ ([] : List String) ∧
    (BackupModel.delete_backup [] (BackupModel.MetaContent.stored Samples.metaBA)
        "a.sql" =
      (([],
        BackupModel.MetaContent.stored
          (Samples.metaBA.filter (fun m => m.filename ≠ "a.sql"))),
       Except.ok true) ∧
    (∀ e ∈ Samples.metaBA.filter (fun m => m.filename ≠ "a.sql"),
      e.filename ≠ "a.sql") ∧
    List.Sublist (Samples.metaBA.filter (fun m => m.filename ≠ "a.sql"))
      Samples.metaBA ∧
    (∀ e ∈ Samples.metaBA, e.filename ≠ "a.sql" →
      e ∈ Samples.metaBA.filter (fun m => m.filename ≠ "a.sql"))) :=
  ⟨by decide,
   delete_backup_removes_exactly_entry [] Samples.metaBA "a.sql" (by decide)⟩

/-- Claim C3: each successful backup creation prepends its entry, so a
sequence of creations leaves the metadata store listing the new entries
in reverse order of creation followed by the pre-existing entries in
their original order; with nondecreasing creation timestamps that are at
least every pre-existing timestamp, the whole store is sorted by
timestamp, most recent first. -/
theorem backup_metadata_newest_first
    (m0 : List BackupModel.BackupEntry) (rs : List BackupModel.BackupRequest)
    (h1 : rs.Pairwise (fun a b => a.timestamp ≤ b.timestamp))
    (h2 : ∀ a ∈ rs, ∀ b ∈ m0, b.timestamp ≤ a.timestamp)
    (h3 : m0.Pairwise (fun a b => b.timestamp ≤ a.timestamp)) :
    BackupModel.run_creations (BackupModel.MetaContent.stored m0) rs =
      BackupModel.MetaContent.stored
        ((rs.map BackupModel.req_entry).reverse ++ m0) ∧
    ((rs.map BackupModel.req_entry).reverse ++ m0).Pairwise
      (fun a b => b.timestamp ≤ a.timestamp) := by
  refine ⟨run_creations_stored rs m0, ?_⟩
  rw [List.pairwise_append]
  refine ⟨?_, h3, ?_⟩
  · rw [List.pairwise_reverse, List.pairwise_map]
    exact h1
  · intro a ha b hb
    rw [List.mem_reverse, List.mem_map] at ha
    obtain ⟨r, hr, rfl⟩ := ha
    exact h2 r hr b hb

theorem backup_metadata_newest_first_witness :
    ([Samples.reqC, Samples.reqD].Pairwise
        (fun a b => a.timestamp ≤ b.timestamp)) ∧
    (∀ a ∈ [Samples.reqC, Samples.reqD], ∀ b ∈ [Samples.entryA],
      b.timestamp ≤ a.timestamp) ∧
    ([Samples.entryA].Pairwise (fun a b => b.timestamp ≤ a.timestamp)) ∧
    (BackupModel.run_creations (BackupModel.MetaContent.stored [Samples.entryA])
        [Samples.reqC, Samples.reqD] =
      BackupModel.MetaContent.stored
        (([Samples.reqC, Samples.reqD].map BackupModel.req_entry).reverse ++
          [Samples.entryA]) ∧
    (([Samples.reqC, Samples.reqD].map BackupModel.req_entry).reverse ++
        [Samples.entryA]).Pairwise (fun a b => b.timestamp ≤ a.timestamp)) :=
  ⟨by decide, by decide, by decide,
   backup_metadata_newest_first [Samples.entryA] [Samples.reqC, Samples.reqD]
     (by decide) (by decide) (by decide)⟩
